import Mathlib

/-!
Shallow embedding of the retrieval-and-ranking pipeline of the
AI-Agent-For-ECommerce repository (backend/src/vector_store.py,
backend/src/search_engine.py, backend/src/conversational_agent.py).

Python floats are embedded as rationals (ℚ): every claim under study is about
comparisons and equalities of scores, prices and ratings, never about rounding.
Python dicts with fixed key sets are embedded as structures, `None` as `Option`,
and string truthiness (`if s:`) as `s ≠ ""`.
-/

namespace AIAgentECommerce

/-- Product record as produced by `data_processor.py` and loaded by
`SearchEngine._load_products_data` (a `None` field is `none`). -/
structure Product where
  id : String
  title : String
  description : String
  category : String
  subcategories : List String
  store : String
  price : Option ℚ
  rating : Option ℚ
  rating_count : Nat
  features : List String
  image_url : Option String
  search_text : String
deriving Repr, DecidableEq

/-- Embeds `VectorStore._price_bucket` (vector_store.py lines 104-117). -/
def price_bucket (price : Option ℚ) : Int :=
  match price with
  | none => -1
  | some p =>
    if p ≤ 0 then -1
    else if p < 10 then 0
    else if p < 25 then 1
    else if p < 50 then 2
    else if p < 100 then 3
    else 4

/-- Denormalized per-view metadata snapshot upserted to the index
(the `base_metadata` dict of `VectorStore._build_views_for_product`). -/
structure ViewMetadata where
  product_id : String
  view : String
  title : String
  category : String
  subcategories : List String
  store : String
  price : ℚ
  price_bucket : Int
  rating : ℚ
  rating_count : Nat
  image_url : String
deriving Repr, DecidableEq

/-- One derived view: id, embedding text, metadata. -/
structure View where
  id : String
  text : String
  metadata : ViewMetadata
deriving Repr, DecidableEq

/-- Embeds the `taxonomy` local of `_build_views_for_product`. -/
def taxonomy (category : String) (subcategories : List String) : String :=
  if subcategories ≠ [] then String.intercalate " > " (category :: subcategories)
  else category

/-- Embeds the `view_a_text` local of `_build_views_for_product`. -/
def view_a_text (p : Product) : String :=
  (String.intercalate "\n"
    [ "Title: " ++ p.title,
      "Brand/Store: " ++ p.store,
      "Category: " ++ taxonomy p.category p.subcategories,
      if p.features ≠ [] then "Key features: " ++ String.intercalate ", " (p.features.take 6)
      else "" ]).trim

/-- Embeds the `view_b_text` local of `_build_views_for_product`. -/
def view_b_text (p : Product) : String :=
  (String.intercalate "\n"
    [ "Title: " ++ p.title,
      "Use-case: " ++ p.description.take 600 ]).trim

/-- Embeds the `base_metadata` dict of `_build_views_for_product`
(`price if price is not None else 0.0`, likewise for rating;
`product.get('image_url') or ''` collapses an absent url to `""`). -/
def base_metadata (p : Product) : ViewMetadata :=
  { product_id := p.id
    view := ""
    title := p.title.take 200
    category := p.category
    subcategories := p.subcategories
    store := p.store.take 100
    price := p.price.getD 0
    price_bucket := price_bucket p.price
    rating := p.rating.getD 0
    rating_count := p.rating_count
    image_url := (p.image_url.getD "") }

/-- Embeds `VectorStore._build_views_for_product` (vector_store.py lines 119-188):
views A and B always, view C only when `search_text` is truthy. -/
def build_views_for_product (p : Product) : List View :=
  let base := base_metadata p
  let va : View :=
    { id := p.id ++ "#A", text := view_a_text p, metadata := { base with view := "A" } }
  let vb : View :=
    { id := p.id ++ "#B", text := view_b_text p, metadata := { base with view := "B" } }
  if p.search_text ≠ "" then
    [va, vb,
      { id := p.id ++ "#C",
        text := "Semantic keywords: " ++ p.search_text.take 1000,
        metadata := { base with view := "C" } }]
  else [va, vb]

/-- Price-bucket filter value: the code allows a single int or a list
(`vector_store.py` lines 276-282). -/
inductive PBFilter where
  | scalar (i : Int)
  | set (l : List Int)
deriving Repr, DecidableEq

/-- Caller-facing filters dict (keys absent or `None` are `none`). -/
structure SearchFilters where
  category : Option String := none
  min_price : Option ℚ := none
  max_price : Option ℚ := none
  min_rating : Option ℚ := none
  price_bucket : Option PBFilter := none
deriving Repr, DecidableEq

/-- The native filter dict built for the index in
`VectorStore.search_similar_products` (vector_store.py lines 262-282):
`price` carries an optional `gte` and an optional `lte` clause. -/
structure PineconeFilter where
  category_eq : Option String := none
  price_gte : Option ℚ := none
  price_lte : Option ℚ := none
  rating_gte : Option ℚ := none
  pb : Option PBFilter := none
deriving Repr, DecidableEq

/-- Embeds the filter-translation loop of `search_similar_products`:
`if filters.get('category'):` is string truthiness, the price bounds and
`min_rating` test `is not None`, and a `max_price` joins an existing
`price` clause. No swap of the two price bounds happens here. -/
def buildPineconeFilter (f : SearchFilters) : PineconeFilter :=
  let pf : PineconeFilter := {}
  let pf := match f.category with
    | some c => if c ≠ "" then { pf with category_eq := some c } else pf
    | none => pf
  let pf := match f.min_price with
    | some m => { pf with price_gte := some m }
    | none => pf
  let pf := match f.max_price with
    | some m => { pf with price_lte := some m }
    | none => pf
  let pf := match f.min_rating with
    | some m => { pf with rating_gte := some m }
    | none => pf
  match f.price_bucket with
  | some v => { pf with pb := some v }
  | none => pf

/-- A Pinecone filter dict is empty iff no clause was added. -/
def PineconeFilter.isEmpty (pf : PineconeFilter) : Bool :=
  pf.category_eq = none && pf.price_gte = none && pf.price_lte = none &&
    pf.rating_gte = none && pf.pb = none

/-- Modelled from the spec: the Vector Index evaluates the filter grammar —
"conjunction of field predicates, operators eq, gte, lte, in" (spec section 6) —
inside the external ANN service (Pinecone), whose code is not part of this
repository.  A view's metadata matches iff every present clause holds. -/
def filterMatches (pf : PineconeFilter) (m : ViewMetadata) : Bool :=
  (match pf.category_eq with | some c => m.category = c | none => true) &&
  (match pf.price_gte with | some q => decide (q ≤ m.price) | none => true) &&
  (match pf.price_lte with | some q => decide (m.price ≤ q) | none => true) &&
  (match pf.rating_gte with | some q => decide (q ≤ m.rating) | none => true) &&
  (match pf.pb with
    | some (.scalar i) => m.price_bucket = i
    | some (.set l) => l.contains m.price_bucket
    | none => true)

/-- The `query_params` sent to the index: requested candidate count and
optional filter (`if pinecone_filter:` — dict truthiness). -/
structure IndexQuery where
  top_k : Nat
  filter : Option PineconeFilter
deriving Repr, DecidableEq

/-- Embeds the request `VectorStore.search_similar_products` issues to the
index (vector_store.py lines 284-294): the received `top_k` is forwarded
verbatim as the candidate count. -/
def vectorStoreIndexQuery (top_k : Nat) (filters : SearchFilters) : IndexQuery :=
  let pf := buildPineconeFilter filters
  { top_k := top_k, filter := if pf.isEmpty then none else some pf }

/-- Embeds the request the engine's search path causes to be issued:
`SearchEngine.search` calls `search_similar_products` with `top_k=top_k * 2`
(search_engine.py line 71, comment: get more results for AI filtering). -/
def engineIndexQuery (top_k : Nat) (filters : SearchFilters) : IndexQuery :=
  vectorStoreIndexQuery (top_k * 2) filters

/-- One raw match as returned by the index query. -/
structure QueryMatch where
  metadata : ViewMetadata
  score : ℚ
deriving Repr, DecidableEq

/-- Grouping key used by the collapse loop: the metadata `product_id`, or the
synthetic title-derived id when it is falsy (vector_store.py lines 307-309). -/
def metaPid (m : ViewMetadata) : String :=
  if m.product_id = "" then "title::" ++ m.title else m.product_id

/-- An entry of the `best_by_product` dict: key, kept metadata, kept score. -/
abbrev CollapsedEntry := String × ViewMetadata × ℚ

/-- Embeds one iteration of the collapse loop of `search_similar_products`
(vector_store.py lines 298-311): sub-threshold matches are skipped before
grouping; an existing key is overwritten in place only on a strictly higher
score (so ties keep the first match); a new key is appended (Python dicts
preserve insertion order). -/
def collapseStep (min_similarity : ℚ) (acc : List CollapsedEntry)
    (mt : QueryMatch) : List CollapsedEntry :=
  if mt.score < min_similarity then acc
  else
    match acc.find? (fun e => e.1 == metaPid mt.metadata) with
    | some e =>
      if e.2.2 < mt.score then
        acc.map (fun e' =>
          if e'.1 = metaPid mt.metadata
          then (metaPid mt.metadata, mt.metadata, mt.score) else e')
      else acc
    | none => acc ++ [(metaPid mt.metadata, mt.metadata, mt.score)]

/-- Embeds the whole collapse loop: `best_by_product` built over the matches
in index-returned order, starting from the empty dict. -/
def collapseMatches (matchList : List QueryMatch) (min_similarity : ℚ) :
    List CollapsedEntry :=
  matchList.foldl (collapseStep min_similarity) []

/-- Descending-score order used by
`sorted(best_by_product.values(), key=lambda x: x[1], reverse=True)`. -/
def scoreGe (a b : CollapsedEntry) : Prop := b.2.2 ≤ a.2.2

instance : DecidableRel scoreGe := fun a b =>
  inferInstanceAs (Decidable (b.2.2 ≤ a.2.2))

instance : IsTotal CollapsedEntry scoreGe := ⟨fun a b => le_total b.2.2 a.2.2⟩

instance : IsTrans CollapsedEntry scoreGe :=
  ⟨fun _ _ _ h1 h2 => le_trans h2 h1⟩

/-- Default of the `min_similarity` parameter of
`VectorStore.search_similar_products` (vector_store.py line 245): `0.3`,
written as an explicit reduced fraction so that it evaluates by kernel
reduction (see `vector_store_default_min_similarity_eq`). -/
def vector_store_default_min_similarity : ℚ := ⟨3, 10, by decide, by decide⟩

/-- Embeds the post-query part of `VectorStore.search_similar_products`
(vector_store.py lines 296-322), as a function of the matches the index
returned: collapse, sort by score descending (Python's `sorted` is a stable
sort, embedded by the stable `insertionSort`), truncate to `top_k`, and
return `(metadata, score)` pairs. -/
def search_similar_products (matchList : List QueryMatch) (top_k : Nat)
    (min_similarity : ℚ) : List (ViewMetadata × ℚ) :=
  ((List.insertionSort scoreGe (collapseMatches matchList min_similarity)).take
    top_k).map (fun e => e.2)

/-- Embeds `SearchEngine._load_products_data`: the catalog dict keyed by
product id, as an association by `Product.id`. -/
def lookupProduct (catalog : List Product) (pid : String) : Option Product :=
  catalog.find? (fun p => p.id == pid)

/-- One enriched search result (search_engine.py lines 85-110): either a full
catalog product together with the similarity score, or the fallback stub
built from the view's denormalized metadata. -/
inductive SearchResultEntry where
  | enriched (product : Product) (similarity_score : ℚ)
  | fallback (id : String) (title : String) (category : String)
      (price : Option ℚ) (rating : Option ℚ) (rating_count : Nat)
      (image_url : String) (similarity_score : ℚ) (description : String)
deriving Repr, DecidableEq

/-- Accessor: the price field of either result shape. -/
def SearchResultEntry.price : SearchResultEntry → Option ℚ
  | .enriched p _ => p.price
  | .fallback _ _ _ pr _ _ _ _ _ => pr

/-- Accessor: the rating field of either result shape. -/
def SearchResultEntry.rating : SearchResultEntry → Option ℚ
  | .enriched p _ => p.rating
  | .fallback _ _ _ _ r _ _ _ _ => r

/-- Accessor: the description field of either result shape. -/
def SearchResultEntry.description : SearchResultEntry → String
  | .enriched p _ => p.description
  | .fallback _ _ _ _ _ _ _ _ d => d

/-- Accessor: whether the entry is the fallback stub. -/
def SearchResultEntry.isFallback : SearchResultEntry → Bool
  | .enriched _ _ => false
  | .fallback _ _ _ _ _ _ _ _ _ => true

/-- Embeds one iteration of the enrichment loop of `SearchEngine.search`
(search_engine.py lines 87-110): `if product_id and product_id in
self.products_data:` takes the full product, otherwise the fallback stub is
synthesized — `price if price > 0 else None`, `rating if rating > 0 else
None`, the generic category-derived description, and an id defaulting to
`unknown_<position>`.  `n` is `len(enriched_results)` at this iteration. -/
def enrichOne (catalog : List Product) (n : Nat) (meta : ViewMetadata)
    (score : ℚ) : SearchResultEntry :=
  match (if meta.product_id = "" then none
         else lookupProduct catalog meta.product_id) with
  | some p => .enriched p score
  | none =>
    .fallback
      (if meta.product_id = "" then "unknown_" ++ toString n else meta.product_id)
      meta.title meta.category
      (if 0 < meta.price then some meta.price else none)
      (if 0 < meta.rating then some meta.rating else none)
      meta.rating_count meta.image_url score
      ("Product from " ++ meta.category ++ " category")

/-- Embeds the whole enrichment loop: one entry per collapsed match, in
order; `enriched_results` grows by one each iteration, so the running length
is the position. -/
def enrichAll (catalog : List Product) (collapsed : List (ViewMetadata × ℚ)) :
    List SearchResultEntry :=
  collapsed.enum.map (fun e => enrichOne catalog e.1 e.2.1 e.2.2)

/-- The structured dict `SearchEngine.search` returns on its non-exception
paths. -/
structure SearchResponse where
  query : String
  refined_query : String
  results : List SearchResultEntry
  total_found : Nat
  message : String
deriving Repr, DecidableEq

/-- Embeds `SearchEngine.search` (search_engine.py lines 41-122) as a function
of the query, the filters, `top_k`, the catalog, and the raw matches the
index returns for the oversampled request.  The call to
`search_similar_products` passes `top_k * 2` and leaves `min_similarity` at
the vector-store default; an empty collapse result returns the no-matches
response; otherwise enrichment runs and the list is truncated to `top_k`,
with `total_found` the pre-truncation collapsed count. -/
def SearchEngine.search (catalog : List Product) (query : String)
    (filters : SearchFilters) (top_k : Nat) (indexMatches : List QueryMatch) :
    SearchResponse :=
  let refined_query := query
  let similar := search_similar_products indexMatches (top_k * 2)
    vector_store_default_min_similarity
  if similar = [] then
    { query := query, refined_query := refined_query, results := [],
      total_found := 0,
      message := "No products found matching your search criteria." }
  else
    let enriched := enrichAll catalog similar
    let final := enriched.take top_k
    { query := query, refined_query := refined_query, results := final,
      total_found := similar.length,
      message := "Found " ++ toString final.length ++ " relevant products" }

/-- Embeds `SearchFiltersHelper.validate_filters` (search_engine.py lines
268-313) on typed filters: `category` kept (stripped) when truthy,
`min_price` when `≥ 0`, `max_price` when `> 0`, `min_rating` when in
`[0, 5]`; `price_bucket` is never copied into the validated dict; finally
the two price bounds are swapped when both survive and `min > max`. -/
def validate_filters (f : SearchFilters) : SearchFilters :=
  let category := match f.category with
    | some c => if c ≠ "" then some c.trim else none
    | none => none
  let min_price := match f.min_price with
    | some m => if 0 ≤ m then some m else none
    | none => none
  let max_price := match f.max_price with
    | some m => if 0 < m then some m else none
    | none => none
  let min_rating := match f.min_rating with
    | some m => if 0 ≤ m ∧ m ≤ 5 then some m else none
    | none => none
  match min_price, max_price with
  | some a, some b =>
    if b < a then
      { category := category, min_price := some b, max_price := some a,
        min_rating := min_rating, price_bucket := none }
    else
      { category := category, min_price := min_price, max_price := max_price,
        min_rating := min_rating, price_bucket := none }
  | _, _ =>
    { category := category, min_price := min_price, max_price := max_price,
      min_rating := min_rating, price_bucket := none }

/-- Keyword parameters accepted by `SearchEngine.search`
(search_engine.py lines 41-45). -/
def searchEngine_search_params : List String :=
  ["query", "filters", "top_k", "use_ai_reranking"]

/-- Keyword arguments `ConversationalAgent._handle_image_search` passes to
`SearchEngine.search` (conversational_agent.py lines 277-282), beside the
positional query. -/
def image_search_call_kwargs : List String :=
  ["filters", "top_k", "min_similarity"]

/-- Python keyword-call check: a call binds only if every keyword argument
names a declared parameter; otherwise it raises `TypeError`. -/
def callAccepted (params kwargs : List String) : Bool :=
  kwargs.all (fun k => params.contains k)

/-! ### Concrete sample data used by counterexamples and witnesses -/

/-- A sample view metadata record. -/
def wMeta : ViewMetadata :=
  { product_id := "P1", view := "A", title := "Wireless Headphones",
    category := "Electronics", subcategories := [], store := "S",
    price := 45, price_bucket := 2, rating := 4, rating_count := 10,
    image_url := "" }

/-- Sample index response: two views of product P1 (scores 1/2 and 7/10),
one view of P2 (score 2/5) and one sub-threshold view of P3 (score 1/10). -/
def wMatches : List QueryMatch :=
  [ { metadata := wMeta, score := ⟨1, 2, by decide, by decide⟩ },
    { metadata := { wMeta with product_id := "P2", title := "Knife Set" },
      score := ⟨2, 5, by decide, by decide⟩ },
    { metadata := { wMeta with view := "B" },
      score := ⟨7, 10, by decide, by decide⟩ },
    { metadata := { wMeta with product_id := "P3", title := "Mug" },
      score := ⟨1, 10, by decide, by decide⟩ } ]

/-- A sample product whose `search_text` blob is non-empty. -/
def wProduct : Product :=
  { id := "P1", title := "T", description := "A nice product",
    category := "Electronics", subcategories := ["Audio"], store := "S",
    price := some 45, rating := some 4, rating_count := 10,
    features := ["wireless"], image_url := none,
    search_text := "keywords blob" }

/-- A sample product with unknown (null) price and rating. -/
def wProductNull : Product :=
  { id := "P9", title := "Mystery", description := "", category := "Misc",
    subcategories := [], store := "S", price := none, rating := none,
    rating_count := 0, features := [], image_url := none, search_text := "" }

/-- The malformed filter of the C5 scenario: `min_price > max_price`. -/
def wFilter50_10 : SearchFilters := { min_price := some 50, max_price := some 10 }

/-- Sample index response whose only match scores 1/10, below the 0.3
default threshold. -/
def wLowMatches : List QueryMatch :=
  [ { metadata := wMeta, score := ⟨1, 10, by decide, by decide⟩ } ]

/-! ### Helper lemmas about the collapse loop -/

/-- Sanity: the default threshold constant is the literal `0.3`. -/
theorem vector_store_default_min_similarity_eq :
    vector_store_default_min_similarity = (0.3 : ℚ) := by
  rw [vector_store_default_min_similarity, Rat.mk'_eq_divInt, Rat.divInt_eq_div]
  norm_num

/-- In a list whose keys are `Nodup`, two entries with the same key coincide. -/
theorem key_unique : ∀ {l : List CollapsedEntry},
    (l.map (fun e => e.1)).Nodup →
    ∀ {e e' : CollapsedEntry}, e ∈ l → e' ∈ l → e.1 = e'.1 → e = e' := by
  intro l
  induction l with
  | nil => intro _ e e' he; cases he
  | cons x t ih =>
    intro hnd e e' he he' hk
    simp only [List.map_cons, List.nodup_cons] at hnd
    rcases List.mem_cons.mp he with rfl | heT
    · rcases List.mem_cons.mp he' with rfl | heT'
      · rfl
      · exact absurd (hk.symm ▸ List.mem_map_of_mem (fun e => e.1) heT') hnd.1
    · rcases List.mem_cons.mp he' with rfl | heT'
      · exact absurd (hk ▸ List.mem_map_of_mem (fun e => e.1) heT) hnd.1
      · exact ih hnd.2 heT heT' hk

/-- Any entry of a collapse step either was already present or records the
current match (which then passed the threshold). -/
theorem collapseStep_origin (ms : ℚ) (acc : List CollapsedEntry)
    (mt : QueryMatch) (e : CollapsedEntry) (h : e ∈ collapseStep ms acc mt) :
    e ∈ acc ∨
      (¬ mt.score < ms ∧ e = (metaPid mt.metadata, mt.metadata, mt.score)) := by
  unfold collapseStep at h
  split at h
  · exact Or.inl h
  · rename_i hms
    split at h
    · rename_i e0 hfind
      split at h
      · rcases List.mem_map.mp h with ⟨a, ha, hfa⟩
        by_cases hk : a.1 = metaPid mt.metadata
        · simp only [hk, if_pos] at hfa
          exact Or.inr ⟨hms, hfa.symm⟩
        · simp only [hk, if_neg, if_false] at hfa
          exact Or.inl (hfa ▸ ha)
      · exact Or.inl h
    · rcases List.mem_append.mp h with h' | h'
      · exact Or.inl h'
      · exact Or.inr ⟨hms, List.mem_singleton.mp h'⟩

/-- A collapse step never changes the list of keys except by appending the
(current, fresh) key. -/
theorem collapseStep_keys_nodup (ms : ℚ) (acc : List CollapsedEntry)
    (mt : QueryMatch) (h : (acc.map (fun e => e.1)).Nodup) :
    ((collapseStep ms acc mt).map (fun e => e.1)).Nodup := by
  unfold collapseStep
  split
  · exact h
  · split
    · rename_i e0 hfind
      split
      · have : (acc.map (fun e' =>
            if e'.1 = metaPid mt.metadata
            then (metaPid mt.metadata, mt.metadata, mt.score) else e')).map
              (fun e => e.1) = acc.map (fun e => e.1) := by
          rw [List.map_map]
          refine List.map_congr_left (fun a _ => ?_)
          by_cases hk : a.1 = metaPid mt.metadata
          · simp [hk]
          · simp [hk]
        rw [this]; exact h
      · exact h
    · rename_i hfind
      rw [List.map_append]
      refine List.Nodup.append h (List.nodup_singleton _) ?_
      intro a ha ha'
      rcases List.mem_map.mp ha with ⟨b, hb, hba⟩
      have hane : a = metaPid mt.metadata := List.mem_singleton.mp ha'
      have := List.find?_eq_none.mp hfind b hb
      simp only [beq_iff_eq] at this
      exact this (hba ▸ hane ▸ rfl)

/-- The keys of the whole collapse are `Nodup`. -/
theorem collapse_keys_nodup (ms : ℚ) :
    ∀ (l : List QueryMatch) (acc : List CollapsedEntry),
      (acc.map (fun e => e.1)).Nodup →
      ((l.foldl (collapseStep ms) acc).map (fun e => e.1)).Nodup := by
  intro l
  induction l with
  | nil => intro acc h; exact h
  | cons mt0 l' ih =>
    intro acc h
    simp only [List.foldl_cons]
    exact ih _ (collapseStep_keys_nodup ms acc mt0 h)

/-- A key present in the accumulator with a given score lower bound is still
present, with the bound intact, after the rest of the fold. -/
theorem collapse_persist (ms : ℚ) :
    ∀ (l : List QueryMatch) (acc : List CollapsedEntry),
      (acc.map (fun e => e.1)).Nodup →
      ∀ (pid : String) (s : ℚ),
        (∃ e ∈ acc, e.1 = pid ∧ s ≤ e.2.2) →
        ∃ e ∈ l.foldl (collapseStep ms) acc, e.1 = pid ∧ s ≤ e.2.2 := by
  intro l
  induction l with
  | nil => intro acc _ pid s h; exact h
  | cons mt0 l' ih =>
    intro acc hnd pid s h
    simp only [List.foldl_cons]
    refine ih _ (collapseStep_keys_nodup ms acc mt0 hnd) pid s ?_
    rcases h with ⟨e, he, hk, hs⟩
    unfold collapseStep
    split
    · exact ⟨e, he, hk, hs⟩
    · split
      · rename_i e0 hfind
        have he0mem : e0 ∈ acc := List.mem_of_find?_eq_some hfind
        have he0k : e0.1 = metaPid mt0.metadata := by
          have := List.find?_some hfind
          simpa using this
        split
        · rename_i hlt
          by_cases hkk : e.1 = metaPid mt0.metadata
          · have hee0 : e = e0 := key_unique hnd he he0mem (by rw [hkk, he0k])
            refine ⟨(metaPid mt0.metadata, mt0.metadata, mt0.score),
              List.mem_map.mpr ⟨e0, he0mem, by simp [he0k]⟩, ?_, ?_⟩
            · exact hk ▸ hkk ▸ rfl
            · exact le_trans (hee0 ▸ hs) (le_of_lt hlt)
          · exact ⟨e, List.mem_map.mpr ⟨e, he, by simp [hkk]⟩, hk, hs⟩
        · exact ⟨e, he, hk, hs⟩
      · exact ⟨e, List.mem_append_left _ he, hk, hs⟩

/-- Any entry of the collapse of a match list either was already in the
accumulator or records some surviving match of the list. -/
theorem collapse_origin (ms : ℚ) :
    ∀ (l : List QueryMatch) (acc : List CollapsedEntry) (e : CollapsedEntry),
      e ∈ l.foldl (collapseStep ms) acc →
      e ∈ acc ∨ ∃ mt, mt ∈ l ∧ ¬ mt.score < ms ∧
        e = (metaPid mt.metadata, mt.metadata, mt.score) := by
  intro l
  induction l with
  | nil => intro acc e h; exact Or.inl h
  | cons mt0 l' ih =>
    intro acc e h
    simp only [List.foldl_cons] at h
    rcases ih _ e h with h' | ⟨mt, hmt, hsv, hrec⟩
    · rcases collapseStep_origin ms acc mt0 e h' with h'' | ⟨hsv, hrec⟩
      · exact Or.inl h''
      · exact Or.inr ⟨mt0, List.mem_cons_self mt0 l', hsv, hrec⟩
    · exact Or.inr ⟨mt, List.mem_cons_of_mem mt0 hmt, hsv, hrec⟩

/-- After processing a surviving match, its key is present with a score at
least the match's score. -/
theorem collapseStep_provides (ms : ℚ) (acc : List CollapsedEntry)
    (mt : QueryMatch) (h : ¬ mt.score < ms) :
    ∃ e ∈ collapseStep ms acc mt,
      e.1 = metaPid mt.metadata ∧ mt.score ≤ e.2.2 := by
  unfold collapseStep
  split
  · exact absurd (by assumption) h
  · split
    · rename_i e0 hfind
      have he0mem : e0 ∈ acc := List.mem_of_find?_eq_some hfind
      have he0k : e0.1 = metaPid mt.metadata := by
        have := List.find?_some hfind
        simpa using this
      split
      · exact ⟨(metaPid mt.metadata, mt.metadata, mt.score),
          List.mem_map.mpr ⟨e0, he0mem, by simp [he0k]⟩, rfl, le_refl _⟩
      · rename_i hnlt
        exact ⟨e0, he0mem, he0k, not_lt.mp hnlt⟩
    · exact ⟨(metaPid mt.metadata, mt.metadata, mt.score),
        List.mem_append_right _ (List.mem_singleton.mpr rfl), rfl, le_refl _⟩

/-- Every kept entry dominates every surviving match of its group: the loop
keeps the single highest-scoring view per product id. -/
theorem collapse_best (ms : ℚ) :
    ∀ (l : List QueryMatch) (acc : List CollapsedEntry),
      (acc.map (fun e => e.1)).Nodup →
      ∀ e ∈ l.foldl (collapseStep ms) acc, ∀ mt ∈ l,
        ¬ mt.score < ms → metaPid mt.metadata = e.1 → mt.score ≤ e.2.2 := by
  intro l
  induction l with
  | nil => intro acc _ e _ mt hmt; cases hmt
  | cons mt0 l' ih =>
    intro acc hnd e he mt hmt hsv hkey
    simp only [List.foldl_cons] at he
    have hnd' := collapseStep_keys_nodup ms acc mt0 hnd
    rcases List.mem_cons.mp hmt with rfl | hmt'
    · rcases collapseStep_provides ms acc mt hsv with ⟨e', he', hk', hs'⟩
      rcases collapse_persist ms l' _ hnd' _ _ ⟨e', he', hk', hs'⟩
        with ⟨e'', he'', hk'', hs''⟩
      have hfinnd := collapse_keys_nodup ms l' _ hnd'
      have : e = e'' := key_unique hfinnd he he'' (by rw [← hkey, hk''])
      exact this ▸ hs''
    · exact ih _ hnd' e he mt hmt' hsv hkey

/-- Every entry of the collapse stores, as its key, the grouping key of its
own kept metadata. -/
theorem collapse_key_eq (ms : ℚ) (matchList : List QueryMatch) :
    ∀ e ∈ collapseMatches matchList ms, e.1 = metaPid e.2.1 := by
  intro e he
  rcases collapse_origin ms matchList [] e he with h | ⟨mt, _, _, hrec⟩
  · cases h
  · rw [hrec]

/-- Every pair returned by `search_similar_products` is the payload of some
collapse entry. -/
theorem ssp_mem (matchList : List QueryMatch) (top_k : Nat) (ms : ℚ) :
    ∀ r ∈ search_similar_products matchList top_k ms,
      ∃ e ∈ collapseMatches matchList ms, r = e.2 := by
  intro r hr
  unfold search_similar_products at hr
  rcases List.mem_map.mp hr with ⟨e, he, hre⟩
  have he' : e ∈ List.insertionSort scoreGe (collapseMatches matchList ms) :=
    List.mem_of_mem_take he
  have he'' : e ∈ collapseMatches matchList ms :=
    (List.perm_insertionSort scoreGe _).mem_iff.mp he'
  exact ⟨e, he'', hre.symm⟩

/-- The collapsed, sorted, truncated list is never longer than `top_k`. -/
theorem ssp_length_le (matchList : List QueryMatch) (top_k : Nat) (ms : ℚ) :
    (search_similar_products matchList top_k ms).length ≤ top_k := by
  unfold search_similar_products
  rw [List.length_map]
  exact List.length_take_le _ _

/-- The grouping keys of the returned pairs are pairwise distinct. -/
theorem ssp_pid_nodup (matchList : List QueryMatch) (top_k : Nat) (ms : ℚ) :
    ((search_similar_products matchList top_k ms).map
      (fun r => metaPid r.1)).Nodup := by
  have hLnd : ((collapseMatches matchList ms).map (fun e => e.1)).Nodup :=
    collapse_keys_nodup ms matchList [] (by simp)
  have hSnd : ((List.insertionSort scoreGe (collapseMatches matchList ms)).map
      (fun e => e.1)).Nodup :=
    (((List.perm_insertionSort scoreGe _).map (fun e => e.1)).nodup_iff).mpr hLnd
  have hTnd : (((List.insertionSort scoreGe
      (collapseMatches matchList ms)).take top_k).map (fun e => e.1)).Nodup :=
    hSnd.sublist ((List.take_sublist _ _).map _)
  unfold search_similar_products
  rw [List.map_map]
  have hcongr : (((List.insertionSort scoreGe
        (collapseMatches matchList ms)).take top_k).map
      ((fun r => metaPid r.1) ∘ (fun e => e.2))) =
      (((List.insertionSort scoreGe
        (collapseMatches matchList ms)).take top_k).map (fun e => e.1)) := by
    refine List.map_congr_left (fun e hmem => ?_)
    have he' : e ∈ collapseMatches matchList ms :=
      (List.perm_insertionSort scoreGe _).mem_iff.mp (List.mem_of_mem_take hmem)
    exact (collapse_key_eq ms matchList e he').symm
  rw [hcongr]
  exact hTnd

/-- The returned pairs are ordered by non-increasing score. -/
theorem ssp_sorted (matchList : List QueryMatch) (top_k : Nat) (ms : ℚ) :
    List.Pairwise (fun a b : ViewMetadata × ℚ => b.2 ≤ a.2)
      (search_similar_products matchList top_k ms) := by
  have hs : List.Sorted scoreGe
      (List.insertionSort scoreGe (collapseMatches matchList ms)) :=
    List.sorted_insertionSort scoreGe _
  have ht : List.Pairwise scoreGe
      ((List.insertionSort scoreGe (collapseMatches matchList ms)).take top_k) :=
    hs.sublist (List.take_sublist _ _)
  unfold search_similar_products
  exact (List.pairwise_map).mpr (ht.imp (fun h => h))

/-- Each returned pair dominates every surviving match of its own group. -/
theorem ssp_best (matchList : List QueryMatch) (top_k : Nat) (ms : ℚ) :
    ∀ r ∈ search_similar_products matchList top_k ms, ∀ mt ∈ matchList,
      ms ≤ mt.score → metaPid mt.metadata = metaPid r.1 → mt.score ≤ r.2 := by
  intro r hr mt hmt hms hkey
  rcases ssp_mem matchList top_k ms r hr with ⟨e, he, hre⟩
  have hek : e.1 = metaPid e.2.1 := collapse_key_eq ms matchList e he
  have : metaPid mt.metadata = e.1 := by
    rw [hek, ← hre]; exact hkey
  have := collapse_best ms matchList [] (by simp) e he mt hmt (not_lt.mpr hms) this
  rw [hre]
  exact this

/-- The sequential dict building of the filter translation, summarised per
field: each clause is exactly the corresponding caller filter. -/
theorem buildPineconeFilter_eq (f : SearchFilters) :
    buildPineconeFilter f =
      { category_eq := match f.category with
          | some c => if c ≠ "" then some c else none
          | none => none,
        price_gte := f.min_price, price_lte := f.max_price,
        rating_gte := f.min_rating, pb := f.price_bucket } := by
  rcases f with ⟨c, mp, xp, mr, pb⟩
  rcases c with _ | c <;> rcases mp with _ | mp <;> rcases xp with _ | xp <;>
    rcases mr with _ | mr <;> rcases pb with _ | pb <;>
    simp only [buildPineconeFilter] <;>
    first
      | rfl
      | (split <;> rfl)

/-! ### Claim theorems -/

/-- C1: for every query, top_k, filters and min_similarity, the result list of
the search pipeline has at most `top_k` entries and no product id appears in
it twice: matches are grouped by product id, only the single highest-scoring
surviving view per product is kept, groups are sorted by score descending and
truncated to `top_k` (and the engine truncates its final result to its own
`top_k` as well). -/
theorem C1_collapse_topk_distinct (matchList : List QueryMatch) (top_k : Nat)
    (ms : ℚ) (catalog : List Product) (query : String) (f : SearchFilters) :
    (search_similar_products matchList top_k ms).length ≤ top_k ∧
    ((search_similar_products matchList top_k ms).map
      (fun r => metaPid r.1)).Nodup ∧
    List.Pairwise (fun a b : ViewMetadata × ℚ => b.2 ≤ a.2)
      (search_similar_products matchList top_k ms) ∧
    (∀ r ∈ search_similar_products matchList top_k ms, ∀ mt ∈ matchList,
      ms ≤ mt.score → metaPid mt.metadata = metaPid r.1 → mt.score ≤ r.2) ∧
    (SearchEngine.search catalog query f top_k matchList).results.length ≤
      top_k := by
  refine ⟨ssp_length_le _ _ _, ssp_pid_nodup _ _ _, ssp_sorted _ _ _,
    ssp_best _ _ _, ?_⟩
  by_cases h : search_similar_products matchList (top_k * 2)
      vector_store_default_min_similarity = []
  · simp [SearchEngine.search, h]
  · simp only [SearchEngine.search, h, if_false, List.length_take]
    exact Nat.min_le_left _ _

/-- C1 witness: the pipeline evaluated on the sample index response. -/
theorem C1_collapse_topk_distinct_witness :
    (search_similar_products wMatches 2 1).length ≤ 2 ∧
    ((search_similar_products wMatches 2 1).map (fun r => metaPid r.1)).Nodup ∧
    List.Pairwise (fun a b : ViewMetadata × ℚ => b.2 ≤ a.2)
      (search_similar_products wMatches 2 1) ∧
    (∀ r ∈ search_similar_products wMatches 2 1, ∀ mt ∈ wMatches,
      (1 : ℚ) ≤ mt.score → metaPid mt.metadata = metaPid r.1 →
        mt.score ≤ r.2) ∧
    (SearchEngine.search [] "q" {} 2 wMatches).results.length ≤ 2 :=
  C1_collapse_topk_distinct wMatches 2 1 [] "q" {}

/-- C2: every returned pair scores at least `min_similarity`, and a product
id all of whose views score below the threshold never appears, because
sub-threshold matches are discarded before grouping. -/
theorem C2_threshold_gate (matchList : List QueryMatch) (top_k : Nat)
    (ms : ℚ) :
    (∀ r ∈ search_similar_products matchList top_k ms, ms ≤ r.2) ∧
    (∀ pid : String,
      (∀ mt ∈ matchList, metaPid mt.metadata = pid → mt.score < ms) →
      ∀ r ∈ search_similar_products matchList top_k ms,
        metaPid r.1 ≠ pid) := by
  constructor
  · intro r hr
    rcases ssp_mem _ _ _ r hr with ⟨e, he, hre⟩
    rcases collapse_origin ms matchList [] e he with h0 | ⟨mt, _, hsv, hrec⟩
    · cases h0
    · rw [hre, hrec]
      exact not_lt.mp hsv
  · intro pid hall r hr hpid
    rcases ssp_mem _ _ _ r hr with ⟨e, he, hre⟩
    rcases collapse_origin ms matchList [] e he with h0 | ⟨mt, hmt, hsv, hrec⟩
    · cases h0
    · rw [hre, hrec] at hpid
      exact hsv (hall mt hmt hpid)

/-- C2 witness: the gate evaluated on the sample index response with
threshold 2/5: product P3 (only view scores 1/10) never appears. -/
theorem C2_threshold_gate_witness :
    (∀ r ∈ search_similar_products wMatches 10 ⟨2, 5, by decide, by decide⟩,
      (⟨2, 5, by decide, by decide⟩ : ℚ) ≤ r.2) ∧
    (∀ pid : String,
      (∀ mt ∈ wMatches, metaPid mt.metadata = pid →
        mt.score < (⟨2, 5, by decide, by decide⟩ : ℚ)) →
      ∀ r ∈ search_similar_products wMatches 10 ⟨2, 5, by decide, by decide⟩,
        metaPid r.1 ≠ pid) :=
  C2_threshold_gate wMatches 10 ⟨2, 5, by decide, by decide⟩

/-- C3: price bucketing is a pure total function with the fixed breakpoints,
it passes the spec's boundary tests, and every view of one product carries
the same bucket. -/
theorem C3_price_bucket_pure (q : ℚ) (p : Product) :
    price_bucket none = -1 ∧
    (q ≤ 0 → price_bucket (some q) = -1) ∧
    (0 < q → q < 10 → price_bucket (some q) = 0) ∧
    (10 ≤ q → q < 25 → price_bucket (some q) = 1) ∧
    (25 ≤ q → q < 50 → price_bucket (some q) = 2) ∧
    (50 ≤ q → q < 100 → price_bucket (some q) = 3) ∧
    (100 ≤ q → price_bucket (some q) = 4) ∧
    price_bucket (some (9.99 : ℚ)) = 0 ∧
    price_bucket (some (10 : ℚ)) = 1 ∧
    price_bucket (some (99.99 : ℚ)) = 3 ∧
    price_bucket (some (100 : ℚ)) = 4 ∧
    (∀ v ∈ build_views_for_product p,
      v.metadata.price_bucket = price_bucket p.price) := by
  refine ⟨rfl, ?_, ?_, ?_, ?_, ?_, ?_, ?_, ?_, ?_, ?_, ?_⟩
  · intro h1
    simp only [price_bucket]
    split_ifs <;> first | rfl | (exfalso; linarith)
  · intro h1 h2
    simp only [price_bucket]
    split_ifs <;> first | rfl | (exfalso; linarith)
  · intro h1 h2
    simp only [price_bucket]
    split_ifs <;> first | rfl | (exfalso; linarith)
  · intro h1 h2
    simp only [price_bucket]
    split_ifs <;> first | rfl | (exfalso; linarith)
  · intro h1 h2
    simp only [price_bucket]
    split_ifs <;> first | rfl | (exfalso; linarith)
  · intro h1
    simp only [price_bucket]
    split_ifs <;> first | rfl | (exfalso; linarith)
  · norm_num [price_bucket]
  · norm_num [price_bucket]
  · norm_num [price_bucket]
  · norm_num [price_bucket]
  · intro v hv
    simp only [build_views_for_product] at hv
    split at hv <;> simp at hv <;>
      rcases hv with rfl | rfl | rfl <;> rfl

/-- C3 witness: the bucketing facts evaluated at price 5 and at the sample
product. -/
theorem C3_price_bucket_pure_witness :
    price_bucket none = -1 ∧
    ((5 : ℚ) ≤ 0 → price_bucket (some 5) = -1) ∧
    (0 < (5 : ℚ) → (5 : ℚ) < 10 → price_bucket (some 5) = 0) ∧
    (10 ≤ (5 : ℚ) → (5 : ℚ) < 25 → price_bucket (some 5) = 1) ∧
    (25 ≤ (5 : ℚ) → (5 : ℚ) < 50 → price_bucket (some 5) = 2) ∧
    (50 ≤ (5 : ℚ) → (5 : ℚ) < 100 → price_bucket (some 5) = 3) ∧
    (100 ≤ (5 : ℚ) → price_bucket (some 5) = 4) ∧
    price_bucket (some (9.99 : ℚ)) = 0 ∧
    price_bucket (some (10 : ℚ)) = 1 ∧
    price_bucket (some (99.99 : ℚ)) = 3 ∧
    price_bucket (some (100 : ℚ)) = 4 ∧
    (∀ v ∈ build_views_for_product wProduct,
      v.metadata.price_bucket = price_bucket wProduct.price) :=
  C3_price_bucket_pure 5 wProduct

/-- C4: a match whose product id is absent from the catalog is never dropped:
it becomes a fallback stub whose price is null exactly when the raw metadata
price was zero or negative, whose rating is null exactly when the raw rating
was zero or negative, and whose description is the generic category-derived
string; enrichment keeps one entry per collapsed match. -/
theorem C4_enrichment_fallback (catalog : List Product) (n : Nat)
    (meta : ViewMetadata) (score : ℚ)
    (habs : lookupProduct catalog meta.product_id = none) :
    (enrichOne catalog n meta score).isFallback = true ∧
    (meta.price ≤ 0 → (enrichOne catalog n meta score).price = none) ∧
    (0 < meta.price →
      (enrichOne catalog n meta score).price = some meta.price) ∧
    (meta.rating ≤ 0 → (enrichOne catalog n meta score).rating = none) ∧
    (0 < meta.rating →
      (enrichOne catalog n meta score).rating = some meta.rating) ∧
    (enrichOne catalog n meta score).description =
      "Product from " ++ meta.category ++ " category" ∧
    (∀ collapsed : List (ViewMetadata × ℚ),
      (enrichAll catalog collapsed).length = collapsed.length) := by
  have hsc : (if meta.product_id = "" then none
      else lookupProduct catalog meta.product_id) = none := by
    split
    · rfl
    · exact habs
  unfold enrichOne
  rw [hsc]
  refine ⟨rfl, ?_, ?_, ?_, ?_, rfl, ?_⟩
  · intro h
    simp [SearchResultEntry.price, not_lt.mpr h]
  · intro h
    simp [SearchResultEntry.price, h]
  · intro h
    simp [SearchResultEntry.rating, not_lt.mpr h]
  · intro h
    simp [SearchResultEntry.rating, h]
  · intro collapsed
    simp [enrichAll]

/-- C4 witness: the fallback stub evaluated against an empty catalog, at a
metadata record with price 45 and rating 4, and at one with price 0 and
rating 0. -/
theorem C4_enrichment_fallback_witness :
    (enrichOne [] 0 wMeta ⟨1, 2, by decide, by decide⟩).isFallback = true ∧
    (wMeta.price ≤ 0 →
      (enrichOne [] 0 wMeta ⟨1, 2, by decide, by decide⟩).price = none) ∧
    (0 < wMeta.price →
      (enrichOne [] 0 wMeta ⟨1, 2, by decide, by decide⟩).price =
        some wMeta.price) ∧
    (wMeta.rating ≤ 0 →
      (enrichOne [] 0 wMeta ⟨1, 2, by decide, by decide⟩).rating = none) ∧
    (0 < wMeta.rating →
      (enrichOne [] 0 wMeta ⟨1, 2, by decide, by decide⟩).rating =
        some wMeta.rating) ∧
    (enrichOne [] 0 wMeta ⟨1, 2, by decide, by decide⟩).description =
      "Product from " ++ wMeta.category ++ " category" ∧
    (∀ collapsed : List (ViewMetadata × ℚ),
      (enrichAll [] collapsed).length = collapsed.length) :=
  C4_enrichment_fallback [] 0 wMeta ⟨1, 2, by decide, by decide⟩ rfl

/-- C5 counterexample: with filters min_price=50, max_price=10, the filter the
search path sends to the index keeps gte=50 and lte=10 — it is not the
swapped translation the claim requires, so the malformed filter is forwarded
unswapped. -/
theorem C5_counterexample :
    (engineIndexQuery 10 wFilter50_10).filter =
      some { category_eq := none, price_gte := some 50, price_lte := some 10,
             rating_gte := none, pb := none } ∧
    (engineIndexQuery 10 wFilter50_10).filter ≠
      some (buildPineconeFilter
        { min_price := some 10, max_price := some 50 }) := by
  decide

/-- C5 amended: `SearchFiltersHelper.validate_filters` does swap the two
bounds when both survive validation and min exceeds max, but the search path
(`SearchEngine.search` into `VectorStore.search_similar_products`) never
invokes it: the filter it sends to the index keeps gte = min_price and
lte = max_price unswapped. -/
theorem C5_validate_swaps_search_path_does_not (f : SearchFilters) (a b : ℚ)
    (k : Nat) (hmin : f.min_price = some a) (hmax : f.max_price = some b)
    (ha : 0 ≤ a) (hb : 0 < b) (hba : b < a) :
    (validate_filters f).min_price = some b ∧
    (validate_filters f).max_price = some a ∧
    (engineIndexQuery k f).filter = some (buildPineconeFilter f) ∧
    (buildPineconeFilter f).price_gte = some a ∧
    (buildPineconeFilter f).price_lte = some b := by
  have hbp := buildPineconeFilter_eq f
  have hne : (buildPineconeFilter f).isEmpty = false := by
    rw [hbp]
    simp [PineconeFilter.isEmpty, hmin]
  refine ⟨?_, ?_, ?_, ?_, ?_⟩
  · simp only [validate_filters, hmin, hmax, if_pos ha, if_pos hb, if_pos hba]
  · simp only [validate_filters, hmin, hmax, if_pos ha, if_pos hb, if_pos hba]
  · simp [engineIndexQuery, vectorStoreIndexQuery, hne]
  · rw [hbp]; exact hmin
  · rw [hbp]; exact hmax

/-- C5 witness: the amended statement evaluated at the 50/10 filter. -/
theorem C5_validate_swaps_search_path_does_not_witness :
    (validate_filters wFilter50_10).min_price = some 10 ∧
    (validate_filters wFilter50_10).max_price = some 50 ∧
    (engineIndexQuery 10 wFilter50_10).filter =
      some (buildPineconeFilter wFilter50_10) ∧
    (buildPineconeFilter wFilter50_10).price_gte = some 50 ∧
    (buildPineconeFilter wFilter50_10).price_lte = some 10 :=
  C5_validate_swaps_search_path_does_not wFilter50_10 50 10 10 rfl rfl
    (by decide) (by decide) (by decide)

/-- C6 counterexample: for top_k = 10 the engine's index request asks for 20
raw candidates, which is less than the 50 an oversample factor of at least 5
would require. -/
theorem C6_counterexample :
    (engineIndexQuery 10 {}).top_k = 20 ∧
    ¬ (10 * 5 ≤ (engineIndexQuery 10 {}).top_k) := by
  decide

/-- C6 amended: the query issued to the index requests exactly `top_k * 2`
raw candidates — the oversample factor is 2, not ≥ 5. -/
theorem C6_oversample_factor_is_two (top_k : Nat) (f : SearchFilters) :
    (engineIndexQuery top_k f).top_k = top_k * 2 := rfl

/-- C7: `SearchEngine.search` accepts no `min_similarity` keyword, so the
image-search call that passes `min_similarity=0.10` does not bind (it raises
`TypeError` in Python); the only `min_similarity` parameter in the search
path is on `VectorStore.search_similar_products`, whose default is 0.3, not
0.25. -/
theorem C7_min_similarity_not_a_parameter :
    callAccepted searchEngine_search_params image_search_call_kwargs = false ∧
    "min_similarity" ∉ searchEngine_search_params ∧
    vector_store_default_min_similarity ≠ (0.25 : ℚ) := by
  refine ⟨by decide, by decide, ?_⟩
  rw [vector_store_default_min_similarity_eq]
  norm_num

/-- C8 counterexample: for the sample product (title "T", blob
"keywords blob"), view C's text is exactly "Semantic keywords: keywords
blob": it is not the title followed by up to 1000 characters of the blob. -/
theorem C8_counterexample :
    ((build_views_for_product wProduct).map (fun v => v.id)) =
      ["P1#A", "P1#B", "P1#C"] ∧
    ((build_views_for_product wProduct).getLast?).map (fun v => v.text) =
      some ("Semantic keywords: " ++ wProduct.search_text.take 1000) ∧
    ("Semantic keywords: " ++ wProduct.search_text.take 1000) ≠
      wProduct.title ++ wProduct.search_text.take 1000 := by
  refine ⟨by decide, rfl, ?_⟩
  intro hEq
  have hd := congrArg String.data hEq
  simp only [String.data_append] at hd
  exact absurd (String.ext (List.append_cancel_right hd)) (by decide)

/-- C8 amended: the indexer derives exactly the two mandatory views #A and #B,
plus #C exactly when the search-text blob is non-empty; view C's text is the
literal "Semantic keywords: " followed by up to 1000 characters of the blob
(the title is not included). -/
theorem C8_views_structure (p : Product) :
    (p.search_text = "" →
      (build_views_for_product p).map (fun v => v.id) =
        [p.id ++ "#A", p.id ++ "#B"]) ∧
    (p.search_text ≠ "" →
      (build_views_for_product p).map (fun v => v.id) =
        [p.id ++ "#A", p.id ++ "#B", p.id ++ "#C"] ∧
      ((build_views_for_product p).getLast?).map (fun v => v.text) =
        some ("Semantic keywords: " ++ p.search_text.take 1000)) := by
  constructor
  · intro h
    simp [build_views_for_product, h]
  · intro h
    refine ⟨by simp [build_views_for_product, h], ?_⟩
    unfold build_views_for_product
    rw [if_pos h]
    rfl

/-- C8 witness: the amended statement evaluated at the sample product. -/
theorem C8_views_structure_witness :
    (wProduct.search_text = "" →
      (build_views_for_product wProduct).map (fun v => v.id) =
        [wProduct.id ++ "#A", wProduct.id ++ "#B"]) ∧
    (wProduct.search_text ≠ "" →
      (build_views_for_product wProduct).map (fun v => v.id) =
        [wProduct.id ++ "#A", wProduct.id ++ "#B", wProduct.id ++ "#C"] ∧
      ((build_views_for_product wProduct).getLast?).map (fun v => v.text) =
        some ("Semantic keywords: " ++ wProduct.search_text.take 1000)) :=
  C8_views_structure wProduct

/-- C9: when the candidate set is empty after threshold filtering, the engine
returns the structured no-matches response — empty results, total_found 0,
human-readable message — and, being a total function, raises nothing. -/
theorem C9_empty_candidates_structured (catalog : List Product)
    (query : String) (f : SearchFilters) (top_k : Nat)
    (matchList : List QueryMatch)
    (h : collapseMatches matchList vector_store_default_min_similarity = []) :
    SearchEngine.search catalog query f top_k matchList =
      { query := query, refined_query := query, results := [],
        total_found := 0,
        message := "No products found matching your search criteria." } := by
  have hempty : search_similar_products matchList (top_k * 2)
      vector_store_default_min_similarity = [] := by
    unfold search_similar_products
    rw [h]
    simp
  simp [SearchEngine.search, hempty]

/-- C9 witness: a response whose only match scores 1/10 (below the 0.3
default) yields the structured empty result. -/
theorem C9_empty_candidates_structured_witness :
    SearchEngine.search [] "q" {} 5 wLowMatches =
      { query := "q", refined_query := "q", results := [], total_found := 0,
        message := "No products found matching your search criteria." } :=
  C9_empty_candidates_structured [] "q" {} 5 wLowMatches (by decide)

/-- C10: a null price is stored in every view's metadata as 0.0 with bucket
-1, a null rating as 0.0; hence a positive min_price or min_rating filter
clause excludes every view of such a product from index-side matching (the
clause evaluation is modelled from the spec's filter grammar, the evaluation
itself living in the external index service). -/
theorem C10_null_fields_zeroed (p : Product) (minp minr : ℚ) :
    (p.price = none → ∀ v ∈ build_views_for_product p,
      v.metadata.price = 0 ∧ v.metadata.price_bucket = -1) ∧
    (p.rating = none → ∀ v ∈ build_views_for_product p,
      v.metadata.rating = 0) ∧
    (0 < minp → p.price = none → ∀ v ∈ build_views_for_product p,
      filterMatches (buildPineconeFilter { min_price := some minp })
        v.metadata = false) ∧
    (0 < minr → p.rating = none → ∀ v ∈ build_views_for_product p,
      filterMatches (buildPineconeFilter { min_rating := some minr })
        v.metadata = false) := by
  have hfields : ∀ v ∈ build_views_for_product p,
      v.metadata.price = p.price.getD 0 ∧
      v.metadata.price_bucket = price_bucket p.price ∧
      v.metadata.rating = p.rating.getD 0 := by
    intro v hv
    simp only [build_views_for_product] at hv
    split at hv <;> simp at hv <;>
      rcases hv with rfl | rfl | rfl <;> exact ⟨rfl, rfl, rfl⟩
  refine ⟨?_, ?_, ?_, ?_⟩
  · intro hp v hv
    rcases hfields v hv with ⟨h1, h2, _⟩
    rw [h1, h2, hp]
    exact ⟨rfl, rfl⟩
  · intro hr v hv
    rcases hfields v hv with ⟨_, _, h3⟩
    rw [h3, hr]
    rfl
  · intro hm hp v hv
    rcases hfields v hv with ⟨h1, _, _⟩
    have hnle : ¬ (minp ≤ v.metadata.price) := by
      rw [h1, hp]
      exact not_le.mpr hm
    simp [filterMatches, buildPineconeFilter_eq, hnle]
  · intro hm hr v hv
    rcases hfields v hv with ⟨_, _, h3⟩
    have hnle : ¬ (minr ≤ v.metadata.rating) := by
      rw [h3, hr]
      exact not_le.mpr hm
    simp [filterMatches, buildPineconeFilter_eq, hnle]

/-- C10 witness: the zeroed-out fields and the exclusion evaluated at the
null-price, null-rating sample product with bounds 5 and 3. -/
theorem C10_null_fields_zeroed_witness :
    (wProductNull.price = none → ∀ v ∈ build_views_for_product wProductNull,
      v.metadata.price = 0 ∧ v.metadata.price_bucket = -1) ∧
    (wProductNull.rating = none → ∀ v ∈ build_views_for_product wProductNull,
      v.metadata.rating = 0) ∧
    (0 < (5 : ℚ) → wProductNull.price = none →
      ∀ v ∈ build_views_for_product wProductNull,
        filterMatches (buildPineconeFilter { min_price := some 5 })
          v.metadata = false) ∧
    (0 < (3 : ℚ) → wProductNull.rating = none →
      ∀ v ∈ build_views_for_product wProductNull,
        filterMatches (buildPineconeFilter { min_rating := some 3 })
          v.metadata = false) :=
  C10_null_fields_zeroed wProductNull 5 3

end AIAgentECommerce
